import Mathlib

/-!
Shallow embedding of `bindgen/gen_zig.py` (the sokol Zig binding generator).

Conventions of the embedding:
* Python strings are Lean `String`s; character-level operations are written
  over `List Char` (via `String.data`) so that every definition is structural
  and kernel-evaluable.
* Python dictionaries are association lists; `dict[k] = v` is modelled by
  consing (lookup returns the first, i.e. most recent, binding).
* A Python expression that can raise an exception (`dict[k]` on a missing key,
  `s[0]` on an empty string, `list[i]` out of range, `str.index` with no
  occurrence) is modelled in the `Option` monad; `none` is an uncaught
  exception, which terminates the generator process.
* The module-level mutable globals (`struct_types`, `c_struct_types`,
  `enum_types`, `enum_items`, `out_lines`) are gathered in a `GState` record
  threaded explicitly.  `out_lines`, a growing string in Python where every
  emitted line ends in a newline, is modelled as the list of emitted lines;
  `render` recovers the exact string that Python would write to the output
  file.
* Literal braces in emitted text are written with the escapes `\x7b` / `\x7d`.
-/

namespace GenZig

/-- Python `\s` (the whitespace class used by `re` and `str.split()/strip()`). -/
def pyIsSpace (c : Char) : Bool :=
  c = ' ' || c = '\t' || c = '\n' || c = '\x0d' || c = '\x0b' || c = '\x0c'

/-- Python regex `\w` word character (ASCII range, which covers all inputs). -/
def isWordChar (c : Char) : Bool :=
  c.isAlphanum || c = '_'

/-- Python `str.split(sep)` for a one-character separator: keeps empty pieces,
`''.split(sep) = ['']`. -/
def splitOnChar (sep : Char) : List Char → List (List Char)
  | [] => [[]]
  | c :: cs =>
    let r := splitOnChar sep cs
    if c = sep then [] :: r
    else
      match r with
      | [] => [[c]]
      | h :: t => (c :: h) :: t

/-- Split at every character satisfying `p`, keeping empty pieces. -/
def splitOnPred (p : Char → Bool) : List Char → List (List Char)
  | [] => [[]]
  | c :: cs =>
    let r := splitOnPred p cs
    if p c then [] :: r
    else
      match r with
      | [] => [[c]]
      | h :: t => (c :: h) :: t

/-- Python `str.split()` with no argument: split on whitespace runs,
discarding empty pieces. -/
def pySplitWs (s : String) : List String :=
  ((splitOnPred pyIsSpace s.data).filter (fun p => ¬ p.isEmpty)).map String.mk

/-- Python `sep.join(parts)` for a one-character separator. -/
def joinWithChar (sep : Char) : List (List Char) → List Char
  | [] => []
  | [p] => p
  | p :: ps => p ++ sep :: joinWithChar sep ps

/-- Python `needle in hay` for strings (substring test). -/
def hasSubstr (needle : List Char) : List Char → Bool
  | [] => needle.isEmpty
  | c :: t => needle.isPrefixOf (c :: t) || hasSubstr needle t

/-- Python `hay.index(needle)`: position of the first occurrence, `none`
models the `ValueError` raised when there is none. -/
def findSubstr (needle : List Char) : List Char → Option Nat
  | [] => if needle.isEmpty then some 0 else none
  | c :: t =>
    if needle.isPrefixOf (c :: t) then some 0
    else (findSubstr needle t).map (· + 1)

/-- Python `str.lower()`. -/
def pyLower (s : String) : String :=
  String.mk (s.data.map Char.toLower)

/-- Python `str.capitalize()`: first character upper-cased, rest lower-cased. -/
def pyCapitalize : List Char → List Char
  | [] => []
  | c :: t => c.toUpper :: t.map Char.toLower

/-- Python `str.strip()`. -/
def pyStrip (s : String) : String :=
  String.mk (((s.data.dropWhile pyIsSpace).reverse.dropWhile pyIsSpace).reverse)

/-- Python `str.startswith(pre)`. -/
def pyStartsWith (s pre : String) : Bool :=
  pre.data.isPrefixOf s.data

/-- Python `s[n:]`. -/
def pyDropStr (s : String) (n : Nat) : String :=
  String.mk (s.data.drop n)

/-! ## Input model (`gen_json.py` output consumed by `gen_zig.py`) -/

/-- One field of a struct declaration: `{'name': ..., 'type': ...}`. -/
structure Field where
  name : String
  type : String
deriving DecidableEq

/-- One item of an enum declaration; `value` is the optional explicit literal
(numeric literals are modelled by their decimal spelling). -/
structure EnumItem where
  name : String
  value : Option String
deriving DecidableEq

/-- One item of a consts declaration (value modelled by its spelling). -/
structure ConstItem where
  name : String
  value : String
deriving DecidableEq

/-- One parameter of a function declaration. -/
structure Param where
  name : String
  type : String
deriving DecidableEq

/-- A declaration, tagged by its `kind` field. -/
inductive Decl where
  | struct (name : String) (fields : List Field)
  | enum (name : String) (items : List EnumItem)
  | consts (items : List ConstItem)
  | func (name : String) (type : String) (params : List Param)
deriving DecidableEq

/-- The whole input document: `module`, `prefix` (called `pfx` here) and the
ordered declaration list. -/
structure Module where
  module : String
  pfx : String
  decls : List Decl
deriving DecidableEq

/-! ## Global state of the generator module -/

/-- The module-level globals of `gen_zig.py`: the three name registries, the
enum-item map, and the output-line accumulator `out_lines`. -/
structure GState where
  struct_types : List String
  c_struct_types : List String
  enum_types : List String
  enum_items : List (String × List String)
  out_lines : List String
deriving DecidableEq

/-- The state the Python module starts in when loaded. -/
def GState.init : GState := ⟨[], [], [], [], []⟩

/-- `l(s)`: append one line to the output accumulator. -/
def GState.addLine (st : GState) (s : String) : GState :=
  { st with out_lines := st.out_lines ++ [s] }

/-- Append several lines (a sequence of `l(...)` calls). -/
def GState.addLines (st : GState) (ls : List String) : GState :=
  { st with out_lines := st.out_lines ++ ls }

/-- The exact string Python holds in `out_lines` (each line gets a trailing
newline) and writes to the output file. -/
def render (lines : List String) : String :=
  String.join (lines.map (fun s => s ++ "\n"))

/-! ## Type tables and classifiers -/

/-- The `prim_types` dict: C primitive spelling to Zig type. -/
def prim_types : List (String × String) :=
  [("int", "i32"), ("bool", "bool"),
   ("int8_t", "i8"), ("uint8_t", "u8"),
   ("int16_t", "i16"), ("uint16_t", "u16"),
   ("int32_t", "i32"), ("uint32_t", "u32"),
   ("int64_t", "i64"), ("uint64_t", "u64"),
   ("float", "f32"), ("double", "f64")]

/-- The `prim_defaults` dict: C primitive spelling to Zig default literal. -/
def prim_defaults : List (String × String) :=
  [("int", "0"), ("bool", "false"),
   ("int8_t", "0"), ("uint8_t", "0"),
   ("int16_t", "0"), ("uint16_t", "0"),
   ("int32_t", "0"), ("uint32_t", "0"),
   ("int64_t", "0"), ("uint64_t", "0"),
   ("float", "0.0"), ("double", "0.0")]

/-- `as_zig_prim_type`: `prim_types[s]`, `none` models the `KeyError`. -/
def as_zig_prim_type (s : String) : Option String :=
  prim_types.lookup s

/-- `type_default_value`: `prim_defaults[s]`, `none` models the `KeyError`. -/
def type_default_value (s : String) : Option String :=
  prim_defaults.lookup s

/-- `as_zig_type`: drop the first `_`-separated segment of the lower-cased
name, capitalize the rest and concatenate. -/
def as_zig_type (s : String) : String :=
  String.mk ((((splitOnChar '_' (pyLower s).data).drop 1).map pyCapitalize).flatten)

/-- `as_const_name`: lower-case, then strip the module prefix when present. -/
def as_const_name (s pfx : String) : String :=
  let outp := pyLower s
  if pyStartsWith outp pfx then pyDropStr outp pfx.data.length else outp

/-- `as_enum_item_name`: strip one optional leading underscore, drop the first
two `_`-separated segments, re-join with `_`, and prepend `_` when the result
starts with a digit.  `none` models the `IndexError` raised by `outp[0]` when
the re-joined remainder is empty. -/
def as_enum_item_name (s : String) : Option String :=
  let outp := if pyStartsWith s ("_") then pyDropStr s 1 else s
  let joined := joinWithChar '_' ((splitOnChar '_' outp.data).drop 2)
  match joined with
  | [] => none
  | c :: _ => some (if c.isDigit then String.mk ('_' :: joined) else String.mk joined)

/-- `enum_default_item`: `enum_items[enum_name][0]`; `none` models the
`KeyError`/`IndexError`. -/
def enum_default_item (st : GState) (enum_name : String) : Option String :=
  (st.enum_items.lookup enum_name).bind List.head?

/-- `is_prim_type`: membership in the `prim_types` dict. -/
def is_prim_type (s : String) : Bool :=
  (prim_types.lookup s).isSome

/-- `is_struct_type`: membership in the `struct_types` registry. -/
def is_struct_type (st : GState) (s : String) : Bool :=
  st.struct_types.contains s

/-- `is_enum_type`: membership in the `enum_types` registry. -/
def is_enum_type (st : GState) (s : String) : Bool :=
  st.enum_types.contains s

/-- `is_string_ptr`. -/
def is_string_ptr (s : String) : Bool :=
  s = "const char *"

/-- `is_const_void_ptr`. -/
def is_const_void_ptr (s : String) : Bool :=
  s = "const void *"

/-- `is_void_ptr`. -/
def is_void_ptr (s : String) : Bool :=
  s = "void *"

/-- `is_prim_ptr`: `s` equals `const <prim> *` for some primitive. -/
def is_prim_ptr (s : String) : Bool :=
  prim_types.any (fun kv => s = "const " ++ kv.1 ++ " *")

/-- `is_struct_ptr`: `s` equals `const <struct> *` for some known struct. -/
def is_struct_ptr (st : GState) (s : String) : Bool :=
  st.struct_types.any (fun t => s = "const " ++ t ++ " *")

/-- `is_func_ptr`: the string contains `(*)`. -/
def is_func_ptr (s : String) : Bool :=
  hasSubstr ("(*)").data s.data

/-- Consume one `\[\d*\]` bracket group. -/
def matchBracket : List Char → Option (List Char)
  | '[' :: rest =>
    match rest.dropWhile Char.isDigit with
    | ']' :: rest2 => some rest2
    | _ => none
  | _ => none

/-- Consume `n` bracket groups. -/
def matchBrackets : Nat → List Char → Option (List Char)
  | 0, cs => some cs
  | n + 1, cs => (matchBracket cs).bind (matchBrackets n)

/-- Match `\w*\s\*?(\[\d*\]){dims}$` against `cs`.  The greedy simulation is
exact: a word character is never whitespace, `*` is not `[`, and a digit is
never `]`, so no backtracking is possible inside this fragment. -/
def matchArrayTail (dims : Nat) (cs : List Char) : Bool :=
  match cs.dropWhile isWordChar with
  | [] => false
  | c :: rest =>
    pyIsSpace c &&
      (let rest2 := match rest with
        | '*' :: r => r
        | _ => rest
       match matchBrackets dims rest2 with
       | some [] => true
       | _ => false)

/-- `re.match` for `^(?:const )?\w*\s\*?\[\d*\](\[\d*\])?$`: the optional
`const ` group is tried greedily first, with backtracking. -/
def matchArray (dims : Nat) (s : String) : Bool :=
  let cs := s.data
  if ("const ").data.isPrefixOf cs then
    matchArrayTail dims (cs.drop 6) || matchArrayTail dims cs
  else
    matchArrayTail dims cs

/-- `is_1d_array_type`: `re_1d_array.match(s)`. -/
def is_1d_array_type (s : String) : Bool :=
  matchArray 1 s

/-- `is_2d_array_type`: `re_2d_array.match(s)`. -/
def is_2d_array_type (s : String) : Bool :=
  matchArray 2 s

/-- `extract_array_type`: `s[:s.index('[')].strip()`; `none` models the
`ValueError` when there is no `[`. -/
def extract_array_type (s : String) : Option String :=
  (findSubstr (['[']) s.data).map (fun i => pyStrip (String.mk (s.data.take i)))

/-- `extract_array_nums`: bracket digits of `s`, as strings. -/
def extract_array_nums (s : String) : Option (List String) :=
  (findSubstr (['[']) s.data).map (fun i =>
    pySplitWs (String.mk ((s.data.drop i).map
      (fun c => if c = '[' ∨ c = ']' then ' ' else c))))

/-- `extract_ptr_type`: second whitespace token when the first is `const`,
else the first token; `none` models the `IndexError` on too few tokens. -/
def extract_ptr_type (s : String) : Option String :=
  match pySplitWs s with
  | [] => none
  | t0 :: rest => if t0 = "const" then rest.head? else some t0

/-! ## Extern C type mapping -/

/-- `as_extern_c_type`: the if/elif chain of the source, in order.  Note that
the chain has no `is_prim_ptr` case, so `const <prim> *` falls through to the
final `'???'`. -/
def as_extern_c_type (st : GState) (arg_type : String) : Option String :=
  if arg_type = "void" then some ("void")
  else if is_prim_type arg_type then as_zig_prim_type arg_type
  else if is_struct_type st arg_type then some (as_zig_type arg_type)
  else if is_enum_type st arg_type then some (as_zig_type arg_type)
  else if is_void_ptr arg_type then some ("?*c_void")
  else if is_const_void_ptr arg_type then some ("?*const c_void")
  else if is_string_ptr arg_type then some ("[*c]const u8")
  else if is_struct_ptr st arg_type then do
    let pt ← extract_ptr_type arg_type
    some ("[*c]const " ++ as_zig_type pt)
  else some ("???")

/-- The token loop of `funcptr_args_c` (accumulator `s`, remaining tokens). -/
def funcptr_args_loop (st : GState) : String → List String → Option String
  | s, [] => some s
  | s, token :: rest => do
    let arg_type := pyStrip token
    let s1 := if s ≠ "" then s ++ ", " else s
    let c_arg ← as_extern_c_type st arg_type
    if c_arg = "void" then some ("")
    else funcptr_args_loop st (s1 ++ c_arg) rest

/-- `funcptr_args_c`: C-style argument list of a function-pointer type. -/
def funcptr_args_c (st : GState) (field_type : String) : Option String := do
  let idx ← findSubstr ("(*)").data field_type.data
  let sub := (field_type.data.drop (idx + 4)).dropLast
  funcptr_args_loop st ("") ((splitOnChar ',' sub).map String.mk)

/-- `funcptr_res_c`: C-style result of a function-pointer type. -/
def funcptr_res_c (field_type : String) : Option String := do
  let idx ← findSubstr ("(*)").data field_type.data
  let res_type := pyStrip (String.mk (field_type.data.take idx))
  if res_type = "void" then some ("void")
  else if is_const_void_ptr res_type then some ("?*const c_void")
  else some ("???")

/-- The parameter loop of `funcdecl_args_c`. -/
def funcdecl_args_loop (st : GState) : String → List Param → Option String
  | s, [] => some s
  | s, p :: rest => do
    let s1 := if s ≠ "" then s ++ ", " else s
    let c ← as_extern_c_type st p.type
    funcdecl_args_loop st (s1 ++ c) rest

/-- `funcdecl_args_c`. -/
def funcdecl_args_c (st : GState) (params : List Param) : Option String :=
  funcdecl_args_loop st ("") params

/-- `funcdecl_res_c`: result type is everything before the first `(`. -/
def funcdecl_res_c (st : GState) (decl_type : String) : Option String := do
  let idx ← findSubstr (['(']) decl_type.data
  as_extern_c_type st (pyStrip (String.mk (decl_type.data.take idx)))

/-! ## Layout-compatibility analysis and pre-parse -/

/-- `struct_is_c_compatible`: a struct is C-compatible unless some field whose
type is a *currently known* struct name is not in `c_struct_types`. -/
def struct_is_c_compatible (st : GState) (fields : List Field) : Bool :=
  fields.all (fun field =>
    !(is_struct_type st field.type && !(st.c_struct_types.contains field.type)))

/-- The enum-item loop of `pre_parse`: transform every item name. -/
def enum_names_of (items : List EnumItem) : Option (List String) :=
  items.mapM (fun item => as_enum_item_name item.name)

/-- One iteration of the `pre_parse` loop.  For a struct, the name is appended
to `struct_types` *before* the compatibility test runs. -/
def pre_parse_step (st : GState) : Decl → Option GState
  | Decl.struct name fields =>
    let st1 := { st with struct_types := st.struct_types ++ [name] }
    if struct_is_c_compatible st1 fields then
      some { st1 with c_struct_types := st1.c_struct_types ++ [name] }
    else
      some st1
  | Decl.enum name items => do
    let names ← enum_names_of items
    some { st with enum_types := st.enum_types ++ [name],
                   enum_items := (name, names) :: st.enum_items }
  | _ => some st

/-- `pre_parse`: the registry-building pass over the declaration list. -/
def pre_parse (st : GState) : List Decl → Option GState
  | [] => some st
  | d :: ds => (pre_parse_step st d).bind (fun st1 => pre_parse st1 ds)

/-! ## Emission -/

/-- The per-field body of the `gen_struct` loop: the list of lines emitted for
one field (possibly empty), `none` modelling an uncaught exception. -/
def field_lines (st : GState) (field : Field) : Option (List String) :=
  let fname := field.name
  let ftype := field.type
  if is_prim_type ftype then do
    let zt ← as_zig_prim_type ftype
    let dv ← type_default_value ftype
    some ["    " ++ fname ++ ": " ++ zt ++ " = " ++ dv ++ ","]
  else if is_struct_type st ftype then
    some ["    " ++ fname ++ ": " ++ as_zig_type ftype ++ " = .\x7b \x7d,"]
  else if is_enum_type st ftype then do
    let di ← enum_default_item st ftype
    some ["    " ++ fname ++ ": " ++ as_zig_type ftype ++ " = ." ++ di ++ ","]
  else if is_string_ptr ftype then
    some ["    " ++ fname ++ ": [*c]const u8 = null,"]
  else if is_const_void_ptr ftype then
    some ["    " ++ fname ++ ": ?*const c_void = null,"]
  else if is_void_ptr ftype then
    some ["    " ++ fname ++ ": ?*c_void = null,"]
  else if is_prim_ptr ftype then do
    let pt ← extract_ptr_type ftype
    let zt ← as_zig_prim_type pt
    some ["    " ++ fname ++ ": ?[*]const " ++ zt ++ " = null,"]
  else if is_func_ptr ftype then do
    let args ← funcptr_args_c st ftype
    let res ← funcptr_res_c ftype
    some ["    " ++ fname ++ ": ?fn(" ++ args ++ ") callconv(.C) " ++ res ++ ","]
  else if is_1d_array_type ftype then do
    let array_type ← extract_array_type ftype
    let array_nums ← extract_array_nums ftype
    if is_prim_type array_type then do
      let zt ← as_zig_prim_type array_type
      let dv ← type_default_value array_type
      let n0 ← array_nums.head?
      some ["    " ++ fname ++ ": [" ++ n0 ++ "]" ++ zt ++ " = [_]" ++ zt ++
            "\x7b" ++ dv ++ "\x7d ** " ++ n0 ++ ","]
    else if is_struct_type st array_type then do
      let zt := as_zig_type array_type
      let n0 ← array_nums.head?
      some ["    " ++ fname ++ ": [" ++ n0 ++ "]" ++ zt ++ " = [_]" ++ zt ++
            "\x7b .\x7b \x7d \x7d ** " ++ n0 ++ ","]
    else if is_const_void_ptr array_type then do
      let n0 ← array_nums.head?
      some ["    " ++ fname ++ ": [" ++ n0 ++ "]?*const c_void = [_]?*const c_void \x7b null \x7d ** " ++
            n0 ++ ","]
    else do
      let n0 ← array_nums.head?
      some ["//    FIXME: ??? array " ++ fname ++ ": " ++ ftype ++ " => " ++
            array_type ++ " [" ++ n0 ++ "]"]
  else if is_2d_array_type ftype then do
    let array_type ← extract_array_type ftype
    let array_nums ← extract_array_nums ftype
    if is_prim_type array_type then
      some ["// FIXME: 2D array with primitive type: " ++ fname]
    else if is_struct_type st array_type then do
      let zt := as_zig_type array_type
      let n0 ← array_nums.head?
      let n1 ← array_nums[1]?
      some ["    " ++ fname ++ ": [" ++ n0 ++ "][" ++ n1 ++ "]" ++ zt ++
            " = [_][" ++ n1 ++ "]" ++ zt ++ "\x7b[_]" ++ zt ++
            "\x7b .\x7b \x7d \x7d**" ++ n1 ++ "\x7d**" ++ n0 ++ ","]
    else
      some []
  else
    some ["//  " ++ fname ++ ": " ++ ftype ++ ";"]

/-- `gen_struct`, as the list of lines it appends. -/
def gen_struct_lines (st : GState) (name : String) (fields : List Field) :
    Option (List String) := do
  let zig_type := as_zig_type name
  let header :=
    if st.c_struct_types.contains name then
      "pub const " ++ zig_type ++ " = extern struct \x7b"
    else
      "pub const " ++ zig_type ++ " = struct \x7b"
  let initLine :=
    "    pub fn init(options: anytype) " ++ zig_type ++ " \x7b var item: " ++
    zig_type ++ " = .\x7b \x7d; init_with(&item, options); return item; \x7d"
  let body ← fields.mapM (field_lines st)
  some (header :: initLine :: body.flatten ++ ["\x7d;"])

/-- The per-item body of the `gen_enum` loop: the `FORCE_U32` sentinel is
dropped, explicit values are kept. -/
def enum_item_lines (item : EnumItem) : Option (List String) := do
  let item_name ← as_enum_item_name item.name
  if item_name ≠ "FORCE_U32" then
    match item.value with
    | some v => some ["    " ++ item_name ++ " = " ++ v ++ ","]
    | none => some ["    " ++ item_name ++ ","]
  else
    some []

/-- `gen_enum`, as the list of lines it appends. -/
def gen_enum_lines (name : String) (items : List EnumItem) : Option (List String) := do
  let body ← items.mapM enum_item_lines
  some (("pub const " ++ as_zig_type name ++ " = extern enum(i32) \x7b") ::
        body.flatten ++ ["\x7d;"])

/-- `gen_consts`, as the list of lines it appends. -/
def gen_consts_lines (pfx : String) (items : List ConstItem) : List String :=
  items.map (fun item =>
    "pub const " ++ as_const_name item.name pfx ++ " = " ++ item.value ++ ";")

/-- `gen_func_c`: the single extern-fn line. -/
def gen_func_c_line (st : GState) (name decl_type : String) (params : List Param) :
    Option String := do
  let args ← funcdecl_args_c st params
  let res ← funcdecl_res_c st decl_type
  some ("pub extern fn " ++ name ++ "(" ++ args ++ ") " ++ res ++ ";")

/-- The lines one declaration contributes in the emission pass of
`gen_module` (for a `func`, `gen_func_c` followed by `gen_func_zig`). -/
def decl_lines (st : GState) (pfx : String) : Decl → Option (List String)
  | Decl.struct name fields => gen_struct_lines st name fields
  | Decl.enum name items => gen_enum_lines name items
  | Decl.consts items => some (gen_consts_lines pfx items)
  | Decl.func name decl_type params => do
    let line ← gen_func_c_line st name decl_type params
    some [line, "// FIXME: zig function wrapper"]

/-- The emission loop of `gen_module`.  The registries of `st` are fixed
during this pass (only `out_lines` grows). -/
def emit_decls (pfx : String) : GState → List Decl → Option GState
  | st, [] => some st
  | st, d :: ds => do
    let ls ← decl_lines st pfx d
    emit_decls pfx (st.addLines ls) ds

/-- `gen_helper_funcs`: a fixed block, emitted only for module `sokol_gfx`. -/
def helper_lines (m : Module) : List String :=
  if m.module = "sokol_gfx" then
    ["fn init_with(target_ptr: anytype, opts: anytype) void \x7b",
     "    switch (@typeInfo(@TypeOf(target_ptr.*))) \x7b",
     "        .Array => \x7b",
     "            inline for (opts) |item, i| \x7b",
     "                init_with(&target_ptr.*[i], opts[i]);",
     "            \x7d",
     "        \x7d,",
     "        .Struct => \x7b",
     "            inline for (@typeInfo(@TypeOf(opts)).Struct.fields) |field| \x7b",
     "                init_with(&@field(target_ptr.*, field.name), @field(opts, field.name));",
     "            \x7d",
     "        \x7d,",
     "        else => \x7b",
     "            target_ptr.* = opts;",
     "        \x7d",
     "    \x7d",
     "\x7d"]
  else []

/-- `gen_module`: the three header lines, the helper block, `pre_parse`, the
API-declarations header, then the emission pass. -/
def gen_module (st : GState) (inp : Module) : Option GState := do
  let st3 ← pre_parse
    ((st.addLines ["// machine generated, do not edit", "", "//--- helper functions ---"]).addLines
      (helper_lines inp)) inp.decls
  emit_decls inp.pfx (st3.addLine ("//--- API declarations ---")) inp.decls

/-- Observable outcome of one `gen_zig` call.  `wrote` carries the full text
written to the output file; `envError` is the caught `EnvironmentError` path
(failure reported, nothing written); `crash` is an uncaught exception raised
inside `gen_module` (it terminates the process before the output file is
opened, so nothing is written either). -/
inductive RunResult where
  | wrote (text : String)
  | envError
  | crash
deriving DecidableEq

/-- The bytes the run puts at the output path: `none` means no write at all. -/
def written : RunResult → Option String
  | RunResult.wrote t => some t
  | _ => none

/-- `gen_zig(input_path, output_path)`, over the module-global state.  The
input file is modelled by `Option Module`: `none` is a missing/unreadable
file, whose `EnvironmentError` is caught before any output file is opened.
On success Python writes the whole accumulated `out_lines` string.  (After an
uncaught exception the process dies, so the post-crash global state is
unobservable; it is modelled by the pre-run state.) -/
def gen_zig (st : GState) (input : Option Module) : GState × RunResult :=
  match input with
  | none => (st, RunResult.envError)
  | some inp =>
    match gen_module st inp with
    | none => (st, RunResult.crash)
    | some st1 => (st1, RunResult.wrote (render st1.out_lines))

/-! ## Concrete example inputs used by the theorems below -/

/-- A registry state that knows struct `sg_desc` (judged compatible) and enum
`sg_action`. -/
def stC6 : GState :=
  ⟨["sg_desc"], ["sg_desc"], ["sg_action"], [(("sg_action"), ["DEF"])], []⟩

/-- An enum declaration whose *first* item is the width-forcing sentinel. -/
def fmtItems : List EnumItem :=
  [⟨("SG_FMT_FORCE_U32"), none⟩, ⟨("SG_FMT_A"), none⟩]

/-- The registry state `pre_parse` builds from the `sg_fmt` enum above. -/
def stC9 : GState :=
  ⟨[], [], ["sg_fmt"], [(("sg_fmt"), ["FORCE_U32", "A"])], []⟩

/-- First input module of the two-run experiment: one constant `A_X = 1`. -/
def modA : Module := ⟨("m"), ("a_"), [Decl.consts [⟨("A_X"), ("1")⟩]]⟩

/-- Second input module of the two-run experiment: one constant `A_Y = 2`. -/
def modB : Module := ⟨("m"), ("a_"), [Decl.consts [⟨("A_Y"), ("2")⟩]]⟩

/-- The global state left behind by running `gen_zig` on `modA` from the
initial state. -/
def stA : GState := (gen_zig GState.init (some modA)).1

/-- The global state after running on `modA` and then on `modB`. -/
def stAB : GState := (gen_zig stA (some modB)).1

/-- An input module whose only declaration is an enum with a two-segment item
identifier. -/
def modBadEnum : Module :=
  ⟨("m"), ("m_"), [Decl.enum ("m_bad") [⟨("SG_A"), none⟩]]⟩

/-! ## Helper lemmas -/

lemma contains_eq_mem (l : List String) (a : String) : l.contains a = true ↔ a ∈ l := by
  induction l with
  | nil => simp
  | cons h t ih => simp [List.contains_cons] at ih ⊢

lemma pre_parse_step_out_lines (st st' : GState) (d : Decl)
    (h : pre_parse_step st d = some st') : st'.out_lines = st.out_lines := by
  cases d with
  | struct name fields =>
    by_cases hc : struct_is_c_compatible
        { st with struct_types := st.struct_types ++ [name] } fields = true
    · simp [pre_parse_step, hc] at h
      rw [← h]
    · simp [pre_parse_step, hc] at h
      rw [← h]
  | enum name items =>
    cases he : enum_names_of items with
    | none => simp [pre_parse_step, he] at h
    | some names =>
      simp [pre_parse_step, he] at h
      rw [← h]
  | consts items =>
    simp [pre_parse_step] at h
    rw [← h]
  | func name decl_type params =>
    simp [pre_parse_step] at h
    rw [← h]

lemma pre_parse_out_lines (ds : List Decl) :
    ∀ st st' : GState, pre_parse st ds = some st' → st'.out_lines = st.out_lines := by
  induction ds with
  | nil =>
    intro st st' h
    simp [pre_parse] at h
    rw [← h]
  | cons d ds ih =>
    intro st st' h
    cases hd : pre_parse_step st d with
    | none => simp [pre_parse, hd] at h
    | some st1 =>
      simp [pre_parse, hd] at h
      rw [ih st1 st' h, pre_parse_step_out_lines st st1 d hd]

lemma emit_decls_out_lines (pfx : String) (ds : List Decl) :
    ∀ st st' : GState, emit_decls pfx st ds = some st' →
      ∃ extra, st'.out_lines = st.out_lines ++ extra := by
  induction ds with
  | nil =>
    intro st st' h
    simp [emit_decls] at h
    exact ⟨[], by rw [← h]; simp⟩
  | cons d ds ih =>
    intro st st' h
    cases hd : decl_lines st pfx d with
    | none => simp [emit_decls, hd] at h
    | some ls =>
      simp [emit_decls, hd] at h
      obtain ⟨extra, he⟩ := ih (st.addLines ls) st' h
      exact ⟨ls ++ extra, by rw [he]; simp [GState.addLines]⟩

lemma gen_module_out_lines (st st' : GState) (m : Module)
    (h : gen_module st m = some st') :
    ∃ extra, st'.out_lines = st.out_lines ++ extra := by
  simp only [gen_module] at h
  cases hp : pre_parse
      ((st.addLines ["// machine generated, do not edit", "", "//--- helper functions ---"]).addLines
        (helper_lines m)) m.decls with
  | none => rw [hp] at h; simp at h
  | some st3 =>
    rw [hp] at h
    simp at h
    obtain ⟨extra, he⟩ := emit_decls_out_lines m.pfx m.decls _ st' h
    refine ⟨(["// machine generated, do not edit", "", "//--- helper functions ---"] ++
      helper_lines m) ++ (["//--- API declarations ---"] ++ extra), ?_⟩
    rw [he]
    have h3 := pre_parse_out_lines m.decls _ st3 hp
    simp [GState.addLine, GState.addLines] at h3 ⊢
    rw [h3]
    simp

/-! ## Claim theorems -/

/-- C7: every string of the fixed primitive vocabulary (signed/unsigned
integers of width 8/16/32/64, the default `int`, `bool`, `float`, `double`)
is classified as a primitive by `is_prim_type`, and `type_default_value`
returns the fixed zero-literal for that primitive's kind: `0` for the integer
types, `false` for `bool`, `0.0` for `float`/`double`.  Both functions are
lookups in fixed tables, hence deterministic and total on this vocabulary. -/
theorem C7_prim_vocabulary_classification_and_defaults :
    (is_prim_type ("int") = true ∧ type_default_value ("int") = some ("0")) ∧
    (is_prim_type ("bool") = true ∧ type_default_value ("bool") = some ("false")) ∧
    (is_prim_type ("int8_t") = true ∧ type_default_value ("int8_t") = some ("0")) ∧
    (is_prim_type ("uint8_t") = true ∧ type_default_value ("uint8_t") = some ("0")) ∧
    (is_prim_type ("int16_t") = true ∧ type_default_value ("int16_t") = some ("0")) ∧
    (is_prim_type ("uint16_t") = true ∧ type_default_value ("uint16_t") = some ("0")) ∧
    (is_prim_type ("int32_t") = true ∧ type_default_value ("int32_t") = some ("0")) ∧
    (is_prim_type ("uint32_t") = true ∧ type_default_value ("uint32_t") = some ("0")) ∧
    (is_prim_type ("int64_t") = true ∧ type_default_value ("int64_t") = some ("0")) ∧
    (is_prim_type ("uint64_t") = true ∧ type_default_value ("uint64_t") = some ("0")) ∧
    (is_prim_type ("float") = true ∧ type_default_value ("float") = some ("0.0")) ∧
    (is_prim_type ("double") = true ∧ type_default_value ("double") = some ("0.0")) := by
  decide

/-- C2 counterexample: the enum-item transform does not recapitalize, so
`MODULE_ENUM_FOO` maps to `FOO`, not to `Foo` as the claim states. -/
theorem C2_counterexample_no_recapitalization :
    as_enum_item_name ("MODULE_ENUM_FOO") ≠ some ("Foo") ∧
    as_enum_item_name ("MODULE_ENUM_FOO") = some ("FOO") := by
  decide

/-- C2 amended: the transform keeps the remaining segments verbatim (no case
change): `MODULE_ENUM_FOO` and its leading-underscore alias `_MODULE_ENUM_FOO`
both map to `FOO`, and `MODULE_ENUM_3D` maps to `_3D`, the underscore being
prepended exactly because the remainder `3D` starts with a digit. -/
theorem C2_amended_enum_item_names :
    as_enum_item_name ("MODULE_ENUM_FOO") = some ("FOO") ∧
    as_enum_item_name ("_MODULE_ENUM_FOO") = some ("FOO") ∧
    as_enum_item_name ("MODULE_ENUM_3D") = some ("_3D") := by
  decide

/-- C3: a run whose input file is missing or unreadable (the caught
`EnvironmentError` path of `gen_zig`, modelled by input `none`) reports the
environment failure and writes nothing: no output text is produced at all. -/
theorem C3_missing_input_reports_and_writes_nothing :
    ∀ st : GState,
      gen_zig st none = (st, RunResult.envError) ∧
      written (gen_zig st none).2 = none := by
  intro st
  exact ⟨rfl, rfl⟩

/-- C1 counterexample: struct `s2` has a field whose type is struct `s1`'s
name, and `s1` appears *after* `s2* in the declaration list; the claim says
this ordering must make `s2`'s compatibility result false, but `pre_parse`
judges `s2` compatible (the field's type is not yet a known struct name when
`s2` is analysed, so it does not block). -/
theorem C1_counterexample_reorder_still_compatible :
    pre_parse GState.init
        [Decl.struct ("s2") [⟨("f"), ("s1")⟩], Decl.struct ("s1") []] =
      some ⟨["s2", "s1"], ["s2", "s1"], [], [], []⟩ ∧
    ("s2" : String) ∈ (⟨["s2", "s1"], ["s2", "s1"], [], [], []⟩ : GState).c_struct_types := by
  decide

/-- C6 counterexample: a `const <prim> *` parameter is *not* mapped to a
raw-pointer representation by the extern-C type mapping: `as_extern_c_type`
has no primitive-pointer case, so `const float *` falls through to the
unresolved marker `???`, which appears verbatim in the emitted binding. -/
theorem C6_counterexample_const_prim_ptr_unresolved :
    as_extern_c_type GState.init ("const float *") = some ("???") ∧
    gen_func_c_line GState.init ("sapp_foo") ("void (const float *)")
        [⟨("v"), ("const float *")⟩] =
      some ("pub extern fn sapp_foo(???) void;") := by
  decide

/-- C8 counterexample: generation state persists between runs.  Running
`gen_zig` on module `modA` and then on module `modB` writes, for `modB`, a
file that differs from the one a fresh run on `modB` writes (the global
accumulator still holds `modA`'s text and is never reset). -/
theorem C8_counterexample_second_run_output_differs :
    written (gen_zig (gen_zig GState.init (some modA)).1 (some modB)).2 ≠
      written (gen_zig GState.init (some modB)).2 := by
  decide

/-- C4: a struct field whose type string matches none of the classifier's
patterns does not abort emission: its lines are exactly one comment-form
placeholder containing the field's name and raw type string; and in a
concrete struct holding such a field between two primitive fields, the other
fields are still emitted normally. -/
theorem C4_unrecognized_field_emits_placeholder :
    (∀ (st : GState) (field : Field),
        is_prim_type field.type = false →
        is_struct_type st field.type = false →
        is_enum_type st field.type = false →
        is_string_ptr field.type = false →
        is_const_void_ptr field.type = false →
        is_void_ptr field.type = false →
        is_prim_ptr field.type = false →
        is_func_ptr field.type = false →
        is_1d_array_type field.type = false →
        is_2d_array_type field.type = false →
        field_lines st field = some ["//  " ++ field.name ++ ": " ++ field.type ++ ";"]) ∧
    gen_struct_lines GState.init ("sg_test")
        [⟨("x"), ("int")⟩, ⟨("weird"), ("uint32_t sample_mask : 8")⟩, ⟨("y"), ("bool")⟩] =
      some ["pub const Test = struct \x7b",
            "    pub fn init(options: anytype) Test \x7b var item: Test = .\x7b \x7d; init_with(&item, options); return item; \x7d",
            "    x: i32 = 0,",
            "//  weird: uint32_t sample_mask : 8;",
            "    y: bool = false,",
            "\x7d;"] := by
  constructor
  · intro st field h1 h2 h3 h4 h5 h6 h7 h8 h9 h10
    simp [field_lines, h1, h2, h3, h4, h5, h6, h7, h8, h9, h10]
  · decide

/-- C4 witness: the bitfield-style type string of the spec's example is
rejected by every classifier pattern and gets the placeholder line. -/
theorem C4_witness :
    is_prim_type ("uint32_t sample_mask : 8") = false ∧
    is_2d_array_type ("uint32_t sample_mask : 8") = false ∧
    field_lines GState.init ⟨("weird"), ("uint32_t sample_mask : 8")⟩ =
      some ["//  " ++ ("weird") ++ ": " ++ ("uint32_t sample_mask : 8") ++ ";"] :=
  ⟨by decide, by decide,
   C4_unrecognized_field_emits_placeholder.1 GState.init
     ⟨("weird"), ("uint32_t sample_mask : 8")⟩ (by decide) (by decide) (by decide)
     (by decide) (by decide) (by decide) (by decide) (by decide) (by decide) (by decide)⟩

/-- C5: the enum-item transform is partial: any identifier with fewer than
three underscore-delimited segments after stripping one optional leading
underscore makes `as_enum_item_name` fail (the `IndexError` of `outp[0]`,
modelled by `none`); `pre_parse` applies it to every enum item, so one such
item makes the whole `gen_zig` run crash with no output written. -/
theorem C5_enum_item_transform_is_partial :
    (∀ s : String,
        (splitOnChar '_' (if pyStartsWith s ("_") then pyDropStr s 1 else s).data).length < 3 →
        as_enum_item_name s = none) ∧
    gen_zig GState.init (some modBadEnum) = (GState.init, RunResult.crash) ∧
    written (gen_zig GState.init (some modBadEnum)).2 = none := by
  refine ⟨?_, by decide, by decide⟩
  intro s h
  have hd : (splitOnChar '_'
      (if pyStartsWith s ("_") then pyDropStr s 1 else s).data).drop 2 = [] := by
    apply List.length_eq_zero.mp
    rw [List.length_drop]
    omega
  simp only [as_enum_item_name, hd, joinWithChar]

/-- C5 witness: the two-segment identifier `SG_A` makes the transform fail. -/
theorem C5_witness :
    (splitOnChar '_'
      (if pyStartsWith ("SG_A") ("_") then pyDropStr ("SG_A") 1 else ("SG_A")).data).length < 3 ∧
    as_enum_item_name ("SG_A") = none :=
  ⟨by decide, C5_enum_item_transform_is_partial.1 ("SG_A") (by decide)⟩

/-- C6 amended: the extern-C type mapping sends a primitive to its fixed-width
Zig type, a known struct or enum name to the transformed type name, and the
`void *`, `const void *`, `const char *` and `const <struct> *` pointer forms
to raw-pointer representations — but `const <prim> *` has no case of its own
and falls through to the unresolved marker `???`. -/
theorem C6_amended_extern_type_mapping :
    (∀ (st : GState) (p z : String),
        prim_types.lookup p = some z → as_extern_c_type st p = some z) ∧
    as_extern_c_type stC6 ("sg_desc") = some ("Desc") ∧
    as_extern_c_type stC6 ("sg_action") = some ("Action") ∧
    as_extern_c_type stC6 ("void *") = some ("?*c_void") ∧
    as_extern_c_type stC6 ("const void *") = some ("?*const c_void") ∧
    as_extern_c_type stC6 ("const char *") = some ("[*c]const u8") ∧
    as_extern_c_type stC6 ("const sg_desc *") = some ("[*c]const Desc") ∧
    as_extern_c_type stC6 ("const float *") = some ("???") := by
  refine ⟨?_, by decide, by decide, by decide, by decide, by decide, by decide, by decide⟩
  intro st p z h
  have hv : prim_types.lookup ("void") = none := by decide
  have hne : p ≠ "void" := by
    intro he
    rw [he, hv] at h
    exact Option.noConfusion h
  simp [as_extern_c_type, hne, is_prim_type, as_zig_prim_type, h]

/-- C6 witness: the primitive `float` maps to `f32`. -/
theorem C6_amended_witness :
    prim_types.lookup ("float") = some ("f32") ∧
    as_extern_c_type GState.init ("float") = some ("f32") :=
  ⟨by decide,
   C6_amended_extern_type_mapping.1 GState.init ("float") ("f32") (by decide)⟩

/-- C9: the default item of an enum is the head of that enum's item list as
registered by `pre_parse` (the first item in declared order), even when that
first item is the `FORCE_U32` width-forcing sentinel that `gen_enum` omits
from the emitted enum; a struct field of the concrete enum `sg_fmt` is then
initialized with `.FORCE_U32`, a name absent from the emitted enum body. -/
theorem C9_enum_default_is_first_declared_item :
    (∀ (st st' : GState) (name : String) (items : List EnumItem) (names : List String),
        pre_parse_step st (Decl.enum name items) = some st' →
        enum_names_of items = some names →
        enum_default_item st' name = names.head?) ∧
    pre_parse GState.init [Decl.enum ("sg_fmt") fmtItems] = some stC9 ∧
    enum_default_item stC9 ("sg_fmt") = some ("FORCE_U32") ∧
    gen_enum_lines ("sg_fmt") fmtItems =
      some ["pub const Fmt = extern enum(i32) \x7b", "    A,", "\x7d;"] ∧
    field_lines stC9 ⟨("f"), ("sg_fmt")⟩ = some ["    f: Fmt = .FORCE_U32,"] := by
  refine ⟨?_, by decide, by decide, by decide, by decide⟩
  intro st st' name items names h1 h2
  simp [pre_parse_step, h2] at h1
  rw [← h1]
  simp [enum_default_item, List.lookup]

/-- C9 witness: the `sg_fmt` enum registered from the initial state has
default item `FORCE_U32`, the head of its declared item list. -/
theorem C9_witness :
    pre_parse_step GState.init (Decl.enum ("sg_fmt") fmtItems) = some stC9 ∧
    enum_names_of fmtItems = some ["FORCE_U32", "A"] ∧
    enum_default_item stC9 ("sg_fmt") = (["FORCE_U32", "A"] : List String).head? :=
  ⟨by decide, by decide,
   C9_enum_default_is_first_declared_item.1 GState.init stC9 ("sg_fmt") fmtItems
     ["FORCE_U32", "A"] (by decide) (by decide)⟩

/-- C10: a struct field whose type matches the 2D-array pattern but whose
element type is neither a primitive nor a known struct name contributes no
output line at all — it is silently dropped, with no placeholder; the other
fields of the same concrete struct are emitted as usual. -/
theorem C10_2d_array_unknown_elem_type_dropped :
    (∀ (st : GState) (field : Field) (elemTy : String),
        is_prim_type field.type = false →
        is_struct_type st field.type = false →
        is_enum_type st field.type = false →
        is_string_ptr field.type = false →
        is_const_void_ptr field.type = false →
        is_void_ptr field.type = false →
        is_prim_ptr field.type = false →
        is_func_ptr field.type = false →
        is_1d_array_type field.type = false →
        is_2d_array_type field.type = true →
        extract_array_type field.type = some elemTy →
        is_prim_type elemTy = false →
        is_struct_type st elemTy = false →
        field_lines st field = some []) ∧
    gen_struct_lines GState.init ("sg_t2")
        [⟨("a"), ("int")⟩, ⟨("b"), ("foo [2][3]")⟩, ⟨("c"), ("bool")⟩] =
      some ["pub const T2 = struct \x7b",
            "    pub fn init(options: anytype) T2 \x7b var item: T2 = .\x7b \x7d; init_with(&item, options); return item; \x7d",
            "    a: i32 = 0,",
            "    c: bool = false,",
            "\x7d;"] := by
  constructor
  · intro st field elemTy h1 h2 h3 h4 h5 h6 h7 h8 h9 h10 h11 h12 h13
    cases hfind : findSubstr (['[']) field.type.data with
    | none =>
      exfalso
      rw [extract_array_type, hfind] at h11
      exact Option.noConfusion h11
    | some i =>
      have hnums : extract_array_nums field.type =
          some (pySplitWs (String.mk ((field.type.data.drop i).map
            (fun c => if c = '[' ∨ c = ']' then ' ' else c)))) := by
        rw [extract_array_nums, hfind]
        rfl
      simp [field_lines, h1, h2, h3, h4, h5, h6, h7, h8, h9, h10, h11, h12, h13, hnums]
  · decide

/-- C1 amended: the compatibility analysis is order-sensitive in one
direction only.  When the struct name a field refers to is already registered
(declared earlier), the new struct is judged compatible only if that name was
itself judged compatible; but when the referred name is not yet registered
(declared later, or in a reordered list), the field is not classified as a
struct type at all, so it cannot block — the new struct's result does not
become false by reordering. -/
theorem C1_amended_compat_order_sensitivity :
    (∀ (st st' : GState) (n2 : String) (fs : List Field) (f : Field),
        f ∈ fs → f.type ∈ st.struct_types → f.type ∉ st.c_struct_types →
        n2 ∉ st.c_struct_types →
        pre_parse_step st (Decl.struct n2 fs) = some st' →
        n2 ∉ st'.c_struct_types) ∧
    (∀ (st st' : GState) (n2 : String) (fs : List Field),
        (∀ f ∈ fs, f.type ∉ st.struct_types ∧ f.type ≠ n2) →
        pre_parse_step st (Decl.struct n2 fs) = some st' →
        n2 ∈ st'.c_struct_types) := by
  constructor
  · intro st st' n2 fs f hf hin hnc hn2 hstep
    have hcomp : struct_is_c_compatible
        { st with struct_types := st.struct_types ++ [n2] } fs = false := by
      by_contra hc
      have hall : struct_is_c_compatible
          { st with struct_types := st.struct_types ++ [n2] } fs = true := by
        revert hc
        cases struct_is_c_compatible
          { st with struct_types := st.struct_types ++ [n2] } fs <;> simp
      have hfld := List.all_eq_true.mp hall f hf
      have hs : is_struct_type
          { st with struct_types := st.struct_types ++ [n2] } f.type = true := by
        rw [is_struct_type]
        exact (contains_eq_mem _ _).mpr (List.mem_append_left _ hin)
      have hc2 : (({ st with struct_types := st.struct_types ++ [n2] } :
          GState).c_struct_types.contains f.type) = false := by
        rw [← Bool.not_eq_true]
        intro hx
        exact hnc ((contains_eq_mem _ _).mp hx)
      rw [hs, hc2] at hfld
      simp at hfld
    simp [pre_parse_step, hcomp] at hstep
    rw [← hstep]
    exact hn2
  · intro st st' n2 fs hall hstep
    have hcomp : struct_is_c_compatible
        { st with struct_types := st.struct_types ++ [n2] } fs = true := by
      rw [struct_is_c_compatible, List.all_eq_true]
      intro f hf
      obtain ⟨h1, h2⟩ := hall f hf
      have hs : is_struct_type
          { st with struct_types := st.struct_types ++ [n2] } f.type = false := by
        rw [is_struct_type, ← Bool.not_eq_true]
        intro hx
        rcases List.mem_append.mp ((contains_eq_mem _ _).mp hx) with hmem | hmem
        · exact h1 hmem
        · exact h2 (List.mem_singleton.mp hmem)
      rw [hs]
      simp
    simp [pre_parse_step, hcomp] at hstep
    rw [← hstep]
    simp

/-- C1 witness: with `s1` already registered but judged incompatible, the new
struct `s2` holding a field of type `s1` is judged incompatible too. -/
theorem C1_amended_witness :
    (⟨("f"), ("s1")⟩ : Field) ∈ [(⟨("f"), ("s1")⟩ : Field)] ∧
    ("s1" : String) ∈ (⟨["s1"], [], [], [], []⟩ : GState).struct_types ∧
    ("s1" : String) ∉ (⟨["s1"], [], [], [], []⟩ : GState).c_struct_types ∧
    pre_parse_step ⟨["s1"], [], [], [], []⟩ (Decl.struct ("s2") [⟨("f"), ("s1")⟩]) =
      some ⟨["s1", "s2"], [], [], [], []⟩ ∧
    ("s2" : String) ∉ (⟨["s1", "s2"], [], [], [], []⟩ : GState).c_struct_types :=
  ⟨by decide, by decide, by decide, by decide,
   C1_amended_compat_order_sensitivity.1 ⟨["s1"], [], [], [], []⟩
     ⟨["s1", "s2"], [], [], [], []⟩ ("s2") [⟨("f"), ("s1")⟩] ⟨("f"), ("s1")⟩
     (by decide) (by decide) (by decide) (by decide) (by decide)⟩

/-- C8 amended: module-level state does persist between runs — a successful
run appends to the global accumulator and writes the *whole* accumulator, so
the text written for the second input extends the rendering of everything the
first run accumulated; only a run from the initial (fresh-process) state
produces the input's standalone output. -/
theorem C8_amended_accumulator_persists :
    ∀ (st st' : GState) (m : Module) (t : String),
      gen_zig st (some m) = (st', RunResult.wrote t) →
      ∃ extra, st'.out_lines = st.out_lines ++ extra ∧
        t = render (st.out_lines ++ extra) := by
  intro st st' m t h
  rw [gen_zig] at h
  cases hg : gen_module st m with
  | none =>
    rw [hg] at h
    simp at h
  | some st1 =>
    rw [hg] at h
    simp at h
    obtain ⟨h1, h2⟩ := h
    obtain ⟨extra, he⟩ := gen_module_out_lines st st1 m hg
    refine ⟨extra, ?_, ?_⟩
    · rw [← h1, he]
    · rw [← h2, ← he, h1]

/-- C8 witness: running on `modB` from the state `modA`'s run left behind
writes a file extending `modA`'s rendered accumulator. -/
theorem C8_amended_witness :
    gen_zig stA (some modB) = (stAB, RunResult.wrote (render stAB.out_lines)) ∧
    ∃ extra, stAB.out_lines = stA.out_lines ++ extra ∧
      render stAB.out_lines = render (stA.out_lines ++ extra) :=
  ⟨rfl,
   C8_amended_accumulator_persists stA stAB modB (render stAB.out_lines) rfl⟩

/-- C10 witness: the field `b: foo [2][3]` (element type `foo` unknown) emits
no lines. -/
theorem C10_witness :
    is_2d_array_type ("foo [2][3]") = true ∧
    extract_array_type ("foo [2][3]") = some ("foo") ∧
    field_lines GState.init ⟨("b"), ("foo [2][3]")⟩ = some [] :=
  ⟨by decide, by decide,
   C10_2d_array_unknown_elem_type_dropped.1 GState.init ⟨("b"), ("foo [2][3]")⟩ ("foo")
     (by decide) (by decide) (by decide) (by decide) (by decide) (by decide) (by decide)
     (by decide) (by decide) (by decide) (by decide) (by decide) (by decide)⟩

end GenZig
